import Mathlib

/-!
Shallow embedding of the storage layer of the actor-mesh-demo repository:
  - src/storage/redis_client.py          (RedisClient, SessionState)
  - src/storage/redis_client_simple.py   (SimplifiedRedisClient)
  - src/storage/sqlite_client.py         (SQLiteClient)

Modelling choices:
  - Redis stores strings; we model a stored string as either a valid JSON
    document (given by its JSON syntax tree) or invalid text.  TTL values are
    not tracked (no claim here depends on expiry).
  - ISO timestamp strings are abstracted to integer time points; each
    operation that reads the clock takes the current time as a parameter.
  - Python dicts are insertion-ordered association lists with unique keys;
    dict.update replaces values of existing keys in place and appends new
    keys at the end.
  - SQLite tables are lists of rows in insertion order.
-/

namespace ActorMesh

/-- JSON syntax tree: the values that json.dumps / json.loads exchange. -/
inductive JValue where
  | jnull : JValue
  | jbool : Bool → JValue
  | jnum : Int → JValue
  | jstr : String → JValue
  | jarr : List JValue → JValue
  | jobj : List (String × JValue) → JValue

/-- A Python dict with string keys, as stored in session context and
customer context: an insertion-ordered association list. -/
abbrev Ctx := List (String × JValue)

/-- A string value stored in Redis: either the text of a valid JSON document
or text that fails JSON parsing ("corrupt" data). -/
inductive RStored where
  | vjson : JValue → RStored
  | invalid : String → RStored

/-- Python truthiness of a stored raw string: only the empty string is falsy.
The text of a valid JSON document is never empty. -/
def rstoredFalsy : RStored → Bool
  | .vjson _ => false
  | .invalid s => s == ""

/-- json.loads on a stored string: the syntax tree on valid JSON text,
a raised error on invalid text. -/
def json_loads : RStored → Except String JValue
  | .vjson v => .ok v
  | .invalid s => .error ("invalid json: " ++ s)

/-- Python truthiness of a parsed JSON value (null, false, 0, empty string,
empty list and empty dict are falsy). -/
def jsonFalsy : JValue → Bool
  | .jnull => true
  | .jbool b => !b
  | .jnum n => n == 0
  | .jstr s => s == ""
  | .jarr xs => xs.isEmpty
  | .jobj fs => fs.isEmpty

/-- dict assignment d[k] = v: replace the value of an existing key in place,
else append the new key at the end. -/
def dictInsert (d : Ctx) (k : String) (v : JValue) : Ctx :=
  if d.any (fun p => p.1 == k) then
    d.map (fun p => if p.1 == k then (k, v) else p)
  else
    d ++ [(k, v)]

/-- dict.update(u): assign every pair of u into d, in order. -/
def dictUpdate (d : Ctx) (u : Ctx) : Ctx :=
  u.foldl (fun acc p => dictInsert acc p.1 p.2) d

/-- The whole Redis keyspace: a map from key strings to stored strings. -/
def RStore := String → Option RStored

/-- Write a key (SETEX, with the TTL abstracted away). -/
def setKey (st : RStore) (k : String) (v : RStored) : RStore :=
  fun q => if q = k then some v else st q

/-- Delete a key (DEL). -/
def delKey (st : RStore) (k : String) : RStore :=
  fun q => if q = k then none else st q

/-- RedisClient._session_key: "session:" namespace. -/
def sessionKey (session_id : String) : String := "session:" ++ session_id

/-- RedisClient._context_key (shared with SimplifiedRedisClient):
"context:" namespace. -/
def contextKey (customer_email : String) : String := "context:" ++ customer_email

/-- SessionState (pydantic model stored in Redis).  created_at and
last_activity are ISO timestamp strings in the source, abstracted here to
integer time points; message_count is a Python int. -/
structure SessionState where
  session_id : String
  customer_email : String
  created_at : Int
  last_activity : Int
  context : Ctx := []
  message_count : Int := 0
  status : String := "active"

/-- SessionState.model_dump_json as a JSON syntax tree: the object with the
seven fields of the model, in declaration order. -/
def sessionToJson (s : SessionState) : JValue :=
  .jobj [("session_id", .jstr s.session_id),
         ("customer_email", .jstr s.customer_email),
         ("created_at", .jnum s.created_at),
         ("last_activity", .jnum s.last_activity),
         ("context", .jobj s.context),
         ("message_count", .jnum s.message_count),
         ("status", .jstr s.status)]

/-- Parse a JSON value back into a SessionState; none when the document does
not have the shape that model_dump_json produces (pydantic validation
failure). -/
def sessionFromJson : JValue → Option SessionState
  | .jobj [("session_id", .jstr sid),
           ("customer_email", .jstr em),
           ("created_at", .jnum ca),
           ("last_activity", .jnum la),
           ("context", .jobj ctx),
           ("message_count", .jnum mc),
           ("status", .jstr st)] =>
      some { session_id := sid, customer_email := em, created_at := ca,
             last_activity := la, context := ctx, message_count := mc,
             status := st }
  | _ => none

/-- SessionState.model_dump_json: serialize to stored text (always valid
JSON). -/
def model_dump_json (s : SessionState) : RStored := .vjson (sessionToJson s)

/-- SessionState.model_validate_json: parse stored text; fails (none after
the exception is caught) on invalid JSON or on a schema mismatch. -/
def model_validate_json : RStored → Option SessionState
  | .vjson v => sessionFromJson v
  | .invalid _ => none

/-- RedisClient.get_session: fetch and deserialize a session; the falsy
check on the raw text treats an empty string like an absent key;
deserialization failure is caught and yields none. -/
def get_session (st : RStore) (session_id : String) : Option SessionState :=
  match st (sessionKey session_id) with
  | none => none
  | some data => if rstoredFalsy data then none else model_validate_json data

/-- RedisClient.create_session: always creates (no existence check), with
created_at = last_activity = now, context defaulting to the empty dict, and
persists the serialized session under the session key. -/
def create_session (st : RStore) (now : Int) (session_id customer_email : String)
    (context : Option Ctx := none) : RStore × SessionState :=
  let session : SessionState :=
    { session_id := session_id, customer_email := customer_email,
      created_at := now, last_activity := now,
      context := context.getD [], message_count := 0, status := "active" }
  (setKey st (sessionKey session_id) (model_dump_json session), session)

/-- The keyword updates accepted by update_session: one optional value per
attribute of SessionState (a keyword naming no attribute is skipped by the
hasattr check, so it is not represented). -/
structure SessionUpdates where
  session_id : Option String := none
  customer_email : Option String := none
  created_at : Option Int := none
  last_activity : Option Int := none
  context : Option Ctx := none
  message_count : Option Int := none
  status : Option String := none

/-- The setattr loop of update_session: every provided (non-None) value is
assigned onto the session, field by field. -/
def applyUpdates (s : SessionState) (u : SessionUpdates) : SessionState :=
  { session_id := u.session_id.getD s.session_id,
    customer_email := u.customer_email.getD s.customer_email,
    created_at := u.created_at.getD s.created_at,
    last_activity := u.last_activity.getD s.last_activity,
    context := u.context.getD s.context,
    message_count := u.message_count.getD s.message_count,
    status := u.status.getD s.status }

/-- RedisClient.update_session: false (store untouched) when the session is
absent; otherwise apply the provided fields, then overwrite last_activity
with the current UTC time, re-persist with a fresh TTL and return true. -/
def update_session (st : RStore) (now : Int) (session_id : String)
    (u : SessionUpdates) : RStore × Bool :=
  match get_session st session_id with
  | none => (st, false)
  | some session =>
    let s1 := applyUpdates session u
    let s2 := { s1 with last_activity := now }
    (setKey st (sessionKey session_id) (model_dump_json s2), true)

/-- RedisClient.increment_message_count: 0 (store untouched) when the
session is absent; otherwise add one to message_count, refresh
last_activity, re-persist and return the new count. -/
def increment_message_count (st : RStore) (now : Int) (session_id : String) :
    RStore × Int :=
  match get_session st session_id with
  | none => (st, 0)
  | some session =>
    let s2 := { session with message_count := session.message_count + 1,
                             last_activity := now }
    (setKey st (sessionKey session_id) (model_dump_json s2), s2.message_count)

/-- RedisClient.set_context: json.dumps the mapping and store it under the
context key (TTL abstracted away). -/
def set_context (st : RStore) (customer_email : String) (context : Ctx) : RStore :=
  setKey st (contextKey customer_email) (.vjson (.jobj context))

/-- RedisClient.get_context: return json.loads(data) if data else None.
An absent key or empty (falsy) raw text yields none; invalid non-empty text
raises, and the exception is NOT caught here (unlike get_session). -/
def get_context (st : RStore) (customer_email : String) :
    Except String (Option JValue) :=
  match st (contextKey customer_email) with
  | none => .ok none
  | some data =>
    if rstoredFalsy data then .ok none
    else match json_loads data with
      | .ok v => .ok (some v)
      | .error e => .error e

/-- RedisClient.update_context: existing = get_context(email) or \x7b\x7d, then
existing.update(updates), then set_context.  A falsy parsed value is replaced
by the empty dict; a truthy non-dict parsed value makes dict.update raise. -/
def update_context (st : RStore) (customer_email : String) (updates : Ctx) :
    Except String RStore :=
  match get_context st customer_email with
  | .error e => .error e
  | .ok r =>
    let base : Except String Ctx :=
      match r with
      | none => .ok []
      | some v =>
        if jsonFalsy v then .ok []
        else match v with
          | .jobj fields => .ok fields
          | _ => .error "AttributeError: update"
    match base with
    | .error e => .error e
    | .ok existing => .ok (set_context st customer_email (dictUpdate existing updates))

/-- SimplifiedRedisClient.cache_customer_context: json.dumps and store under
the same "context:" key scheme (TTL abstracted away). -/
def cache_customer_context (st : RStore) (customer_email : String) (context_data : Ctx) :
    RStore :=
  setKey st (contextKey customer_email) (.vjson (.jobj context_data))

/-- SimplifiedRedisClient.get_customer_context: none on an absent key; on a
stored value, json.loads; a parse failure actively deletes the corrupt key
and yields none (the store is threaded to record that deletion). -/
def get_customer_context (st : RStore) (customer_email : String) :
    RStore × Option JValue :=
  match st (contextKey customer_email) with
  | none => (st, none)
  | some raw =>
    match json_loads raw with
    | .ok v => (st, some v)
    | .error _ => (delKey st (contextKey customer_email), none)

/-- SimplifiedRedisClient.update_customer_context: false when
get_customer_context yields None (no create-on-absent); otherwise
existing.update(updates) (raising when the parsed value is not a dict),
re-cache, and return true. -/
def update_customer_context (st : RStore) (customer_email : String) (updates : Ctx) :
    Except String (RStore × Bool) :=
  let res := get_customer_context st customer_email
  match res.2 with
  | none => .ok (res.1, false)
  | some v =>
    match v with
    | .jobj fields =>
        .ok (cache_customer_context res.1 customer_email (dictUpdate fields updates), true)
    | _ => .error "AttributeError: update"

/-- A row of the conversations table (session_id is the primary key;
timestamps abstracted to integer time points). -/
structure ConvRow where
  session_id : String
  status : String
  issue_type : Option String
  sentiment : Option String
  created_at : Int
  updated_at : Int

/-- The rows of a conversations table holding a given session_id. -/
def convRows (table : List ConvRow) (session_id : String) : List ConvRow :=
  table.filter (fun r => r.session_id == session_id)

/-- The DO UPDATE SET clause of update_conversation, applied to one stored
row: on the conflicting row (same session_id) it overwrites status,
issue_type, sentiment and updated_at from the excluded row and keeps
created_at; every other row is untouched. -/
def convUpdate (now : Int) (session_id status : String)
    (issue_type sentiment : Option String) (r : ConvRow) : ConvRow :=
  if r.session_id == session_id then
    { r with status := status, issue_type := issue_type,
             sentiment := sentiment, updated_at := now }
  else r

/-- SQLiteClient.update_conversation: INSERT .. ON CONFLICT(session_id)
DO UPDATE SET status, issue_type, sentiment and updated_at from the excluded
row; created_at is listed in neither SET clause, so a conflicting insert
keeps the created_at of the existing row. -/
def update_conversation (table : List ConvRow) (now : Int) (session_id : String)
    (status : String := "active") (issue_type : Option String := none)
    (sentiment : Option String := none) : List ConvRow :=
  if table.any (fun r => r.session_id == session_id) then
    table.map (convUpdate now session_id status issue_type sentiment)
  else
    table ++ [{ session_id := session_id, status := status,
                issue_type := issue_type, sentiment := sentiment,
                created_at := now, updated_at := now }]

/-- A row of the messages table.  The metadata column is nullable TEXT:
none models SQL NULL, some v models the text of the JSON document v.  The
surrogate autoincrement id is the position in the list. -/
structure MsgRow where
  session_id : String
  message_id : String
  customer_email : String
  message_type : String
  content : String
  metadata : Option JValue
  created_at : Int

/-- SQLiteClient.add_message: append one row; metadata_json =
json.dumps(metadata or \x7b\x7d), so the column always holds serialized JSON text
(the empty object when the argument is absent or falsy), never SQL NULL;
created_at is the UTC time read at insert. -/
def add_message (table : List MsgRow) (now : Int)
    (session_id message_id customer_email message_type content : String)
    (metadata : Option Ctx := none) : List MsgRow :=
  let metadata_json : JValue := .jobj (metadata.getD [])
  table ++ [{ session_id := session_id, message_id := message_id,
              customer_email := customer_email, message_type := message_type,
              content := content, metadata := some metadata_json,
              created_at := now }]

/-- Concrete fixture: the empty Redis keyspace, used to instantiate the
general theorems. -/
def emptyStore : RStore := fun _ => none

/-! Helper lemmas -/

/-- Reading a key right after writing it returns the written value. -/
theorem setKey_same (st : RStore) (k : String) (v : RStored) :
    setKey st k v k = some v := by
  simp [setKey]

/-- Serialization round-trip: parsing the JSON dump of a session recovers
the session. -/
theorem sessionFromJson_toJson (s : SessionState) :
    sessionFromJson (sessionToJson s) = some s := by
  cases s
  rfl

/-- get_session right after persisting a serialized session under the same
id returns that session. -/
theorem get_session_setKey_same (st : RStore) (id : String) (s : SessionState) :
    get_session (setKey st (sessionKey id) (model_dump_json s)) id = some s := by
  simp [get_session, setKey_same, model_dump_json, rstoredFalsy,
    model_validate_json, sessionFromJson_toJson]

/-! Claim theorems -/

/-- C4: create_session(id, email) followed by get_session(id) returns a
session whose session_id is id, whose customer_email is email, and whose
last_activity equals created_at. -/
theorem C4_create_then_get_round_trip (st : RStore) (now : Int) (id email : String) :
    ∃ s, get_session (create_session st now id email).1 id = some s ∧
      s.session_id = id ∧ s.customer_email = email ∧
      s.last_activity = s.created_at := by
  refine ⟨{ session_id := id, customer_email := email, created_at := now,
            last_activity := now, context := [], message_count := 0,
            status := "active" }, ?_, rfl, rfl, rfl⟩
  exact get_session_setKey_same st id _

/-- C6: update_session on an id with no stored session returns false and
returns the store unchanged: no key created, no key modified. -/
theorem C6_update_session_absent (st : RStore) (now : Int) (id : String)
    (u : SessionUpdates) (h : st (sessionKey id) = none) :
    update_session st now id u = (st, false) := by
  simp [update_session, get_session, h]

/-- C6 witness: on the empty store, updating session "x" returns false and
leaves the store as it was. -/
theorem C6_update_session_absent_witness :
    (fun _ => none : RStore) (sessionKey "x") = none ∧
      update_session (fun _ => none) 5 "x" {} = ((fun _ => none : RStore), false) :=
  ⟨rfl, C6_update_session_absent (fun _ => none) 5 "x" {} rfl⟩

/-- C7: update_customer_context of the simplified cache, on an email with no
cached context, returns false and creates no key (the store is returned
unchanged), unlike update_context of the full variant which creates it. -/
theorem C7_update_customer_context_absent (st : RStore) (email : String)
    (u : Ctx) (h : st (contextKey email) = none) :
    update_customer_context st email u = .ok (st, false) := by
  simp [update_customer_context, get_customer_context, h]

/-- C7 witness: on the empty store, updating the context of "a@b" returns
false and leaves the store as it was. -/
theorem C7_update_customer_context_absent_witness :
    (fun _ => none : RStore) (contextKey "a@b") = none ∧
      update_customer_context (fun _ => none) "a@b" [("k", .jnum 1)] =
        .ok ((fun _ => none : RStore), false) :=
  ⟨rfl, C7_update_customer_context_absent (fun _ => none) "a@b" [("k", .jnum 1)] rfl⟩

/-- C10: add_message with the metadata argument omitted (or null) inserts a
row whose metadata column holds the serialized empty mapping, never SQL
NULL, and whose created_at column is the UTC time taken at insert. -/
theorem C10_add_message_defaults (table : List MsgRow) (now : Int)
    (sid mid email mtype content : String) :
    ∃ row, add_message table now sid mid email mtype content none = table ++ [row] ∧
      row.metadata = some (.jobj []) ∧ row.metadata ≠ none ∧
      row.created_at = now := by
  refine ⟨_, rfl, rfl, ?_, rfl⟩
  simp [add_message]

/-- C1 counterexample: on a fresh session, the three return values of
increment_message_count are 1, 2, 3 - not the 3, 2, 1 progression the claim
states. -/
theorem C1_counterexample :
    (let p0 := create_session emptyStore 0 "s1" "c@x"
     let p1 := increment_message_count p0.1 1 "s1"
     let p2 := increment_message_count p1.1 2 "s1"
     let p3 := increment_message_count p2.1 3 "s1"
     (p1.2, p2.2, p3.2)) = (1, 2, 3) ∧
    ((1, 2, 3) : Int × Int × Int) ≠ (3, 2, 1) := by
  constructor
  · rfl
  · decide

/-- C1 amended: three successive calls to increment_message_count on a
freshly created session return 1, 2, 3 in that order, and afterwards
get_session(id).message_count = 3. -/
theorem C1_increment_count_progression (st : RStore) (t0 t1 t2 t3 : Int)
    (id email : String) :
    (let p0 := create_session st t0 id email
     let p1 := increment_message_count p0.1 t1 id
     let p2 := increment_message_count p1.1 t2 id
     let p3 := increment_message_count p2.1 t3 id
     p1.2 = 1 ∧ p2.2 = 2 ∧ p3.2 = 3 ∧
       ∃ s3, get_session p3.1 id = some s3 ∧ s3.message_count = 3) := by
  simp [create_session, increment_message_count, get_session_setKey_same]

/-- C3 counterexample: a non-empty stored context value that is not valid
JSON makes the full-variant get_context propagate a deserialization error;
the result is not the null (ok-none) result the claim states. -/
theorem C3_counterexample :
    get_context (setKey emptyStore (contextKey "c@x") (.invalid "garbage")) "c@x" =
      .error ("invalid json: garbage") ∧
    (Except.error ("invalid json: garbage") : Except String (Option JValue)) ≠
      .ok none := by
  constructor
  · rfl
  · intro h
    exact Except.noConfusion h

/-- C3 amended: on any non-empty stored context value that fails JSON
parsing, the full-variant get_context propagates the deserialization error
to the caller instead of returning null (only an absent key or empty stored
text yields null; the corrupt value itself is not touched, since get_context
performs no write). -/
theorem C3_get_context_corrupt_raises (st : RStore) (email tx : String)
    (hs : st (contextKey email) = some (.invalid tx)) (hne : tx ≠ "") :
    get_context st email = .error ("invalid json: " ++ tx) := by
  simp [get_context, hs, rstoredFalsy, json_loads, hne]

/-- C3 amended witness: the corrupt text "garbage" under the context key of
"w@x" makes get_context return the deserialization error. -/
theorem C3_get_context_corrupt_raises_witness :
    (setKey emptyStore (contextKey "w@x") (.invalid "garbage")) (contextKey "w@x") =
        some (.invalid "garbage") ∧
    "garbage" ≠ "" ∧
    get_context (setKey emptyStore (contextKey "w@x") (.invalid "garbage")) "w@x" =
      .error ("invalid json: " ++ "garbage") :=
  ⟨rfl, by decide,
    C3_get_context_corrupt_raises _ "w@x" "garbage" rfl (by decide)⟩

/-- C5: update_session(id, status := "closed") on an existing session
returns true, and get_session afterwards shows status "closed" and a
last_activity strictly later than the one held before the update (the clock
having advanced strictly). -/
theorem C5_update_session_status_closed (st : RStore) (now : Int) (id : String)
    (s : SessionState) (hs : get_session st id = some s)
    (ht : s.last_activity < now) :
    (update_session st now id { status := some "closed" }).2 = true ∧
    ∃ s2, get_session (update_session st now id { status := some "closed" }).1 id =
        some s2 ∧
      s2.status = "closed" ∧ s.last_activity < s2.last_activity := by
  refine ⟨?_, ?_⟩ <;>
    simp [update_session, hs, get_session_setKey_same, applyUpdates]
  exact ht

/-- C5 witness: a session created at time 0 and updated at time 1 shows the
closed status and a strictly later last_activity. -/
theorem C5_update_session_status_closed_witness :
    get_session (create_session emptyStore 0 "s1" "c@x").1 "s1" =
        some { session_id := "s1", customer_email := "c@x", created_at := 0,
               last_activity := 0, context := [], message_count := 0,
               status := "active" } ∧
    ((0 : Int) < 1) ∧
    ((update_session (create_session emptyStore 0 "s1" "c@x").1 1 "s1"
        { status := some "closed" }).2 = true ∧
     ∃ s2, get_session
         (update_session (create_session emptyStore 0 "s1" "c@x").1 1 "s1"
           { status := some "closed" }).1 "s1" = some s2 ∧
       s2.status = "closed" ∧ (0 : Int) < s2.last_activity) :=
  ⟨rfl, by decide,
    C5_update_session_status_closed (create_session emptyStore 0 "s1" "c@x").1 1 "s1"
      { session_id := "s1", customer_email := "c@x", created_at := 0,
        last_activity := 0, context := [], message_count := 0,
        status := "active" }
      rfl (by decide)⟩

/-- C9: update_session applies a provided session_id value like any other
attribute: on an existing session at id and other different from id,
update_session(id, session_id := other) returns true and get_session(id)
afterwards returns a session whose session_id field is other, still stored
under the key of the original id. -/
theorem C9_update_session_identity_field (st : RStore) (now : Int)
    (id other : String) (s : SessionState) (hs : get_session st id = some s)
    (hne : other ≠ id) :
    (update_session st now id { session_id := some other }).2 = true ∧
    ∃ s2, get_session (update_session st now id { session_id := some other }).1 id =
        some s2 ∧
      s2.session_id = other := by
  refine ⟨?_, ?_⟩ <;>
    simp [update_session, hs, get_session_setKey_same, applyUpdates]

/-- C9 witness: renaming the session_id field of session "s1" to "s2" keeps
the record readable under the original id "s1". -/
theorem C9_update_session_identity_field_witness :
    get_session (create_session emptyStore 0 "s1" "c@x").1 "s1" =
        some { session_id := "s1", customer_email := "c@x", created_at := 0,
               last_activity := 0, context := [], message_count := 0,
               status := "active" } ∧
    "s2" ≠ "s1" ∧
    ((update_session (create_session emptyStore 0 "s1" "c@x").1 7 "s1"
        { session_id := some "s2" }).2 = true ∧
     ∃ s2, get_session
         (update_session (create_session emptyStore 0 "s1" "c@x").1 7 "s1"
           { session_id := some "s2" }).1 "s1" = some s2 ∧
       s2.session_id = "s2") :=
  ⟨rfl, by decide,
    C9_update_session_identity_field (create_session emptyStore 0 "s1" "c@x").1 7
      "s1" "s2"
      { session_id := "s1", customer_email := "c@x", created_at := 0,
        last_activity := 0, context := [], message_count := 0,
        status := "active" }
      rfl (by decide)⟩

/-- C8: set_context with the dict a = 1 followed by update_context with the
dict b = 2 followed by get_context returns the shallow merge holding a = 1
and b = 2. -/
theorem C8_set_update_get_merge (st : RStore) (email : String) :
    ∃ st2,
      update_context (set_context st email [("a", .jnum 1)]) email
          [("b", .jnum 2)] = .ok st2 ∧
      get_context st2 email =
        .ok (some (.jobj [("a", .jnum 1), ("b", .jnum 2)])) := by
  have h1 : get_context (set_context st email [("a", .jnum 1)]) email =
      .ok (some (.jobj [("a", .jnum 1)])) := by
    simp [get_context, set_context, setKey_same, rstoredFalsy, json_loads]
  refine ⟨set_context (set_context st email [("a", .jnum 1)]) email
      [("a", .jnum 1), ("b", .jnum 2)], ?_, ?_⟩
  · simp [update_context, h1, jsonFalsy, dictUpdate, dictInsert]
  · simp [get_context, set_context, setKey_same, rstoredFalsy, json_loads]

/-! List helper lemmas for the conversations table -/

/-- Filtering after mapping a predicate-preserving function is mapping the
filtered list. -/
theorem listFilterMapPres {α : Type} (f : α → α) (p : α → Bool)
    (hf : ∀ r, p (f r) = p r) (l : List α) :
    (l.map f).filter p = (l.filter p).map f := by
  induction l with
  | nil => rfl
  | cons a l ih =>
    cases h : p a with
    | true => simp [List.filter_cons, hf a, h, ih]
    | false => simp [List.filter_cons, hf a, h, ih]

/-- Mapping a predicate-preserving function does not change List.any. -/
theorem listAnyMapPres {α : Type} (f : α → α) (p : α → Bool)
    (hf : ∀ r, p (f r) = p r) (l : List α) :
    (l.map f).any p = l.any p := by
  induction l with
  | nil => rfl
  | cons a l ih => simp [List.any_cons, hf a, ih]

/-- When no element satisfies the predicate, the filter is empty. -/
theorem listFilterNilOfAnyFalse {α : Type} (p : α → Bool) (l : List α)
    (h : l.any p = false) : l.filter p = [] := by
  induction l with
  | nil => rfl
  | cons a l ih =>
    simp only [List.any_cons, Bool.or_eq_false_iff] at h
    simp [List.filter_cons, h.1, ih h.2]

/-- When some element satisfies the predicate and the filter has at most one
element, the filter is a singleton of a satisfying element. -/
theorem listSingletonOfAnyTrue {α : Type} (p : α → Bool) (l : List α)
    (h : l.any p = true) (hlen : (l.filter p).length ≤ 1) :
    ∃ r, l.filter p = [r] ∧ p r = true := by
  obtain ⟨x, hxl, hpx⟩ := List.any_eq_true.mp h
  have hxf : x ∈ l.filter p := List.mem_filter.mpr ⟨hxl, hpx⟩
  have hone : (l.filter p).length = 1 := by
    have hpos : 0 < (l.filter p).length :=
      List.length_pos.mpr (List.ne_nil_of_mem hxf)
    omega
  obtain ⟨r, hr⟩ := List.length_eq_one.mp hone
  refine ⟨r, hr, ?_⟩
  have hrmem : r ∈ l.filter p := by simp [hr]
  exact (List.mem_filter.mp hrmem).2

/-- convUpdate never changes the session_id of a row. -/
theorem convUpdate_session_id (now : Int) (sid status : String)
    (it sn : Option String) (r : ConvRow) :
    (convUpdate now sid status it sn r).session_id = r.session_id := by
  unfold convUpdate
  split <;> rfl

/-- convUpdate never changes the created_at of a row. -/
theorem convUpdate_created_at (now : Int) (sid status : String)
    (it sn : Option String) (r : ConvRow) :
    (convUpdate now sid status it sn r).created_at = r.created_at := by
  unfold convUpdate
  split <;> rfl

/-- On the conflicting row, convUpdate writes the new status. -/
theorem convUpdate_status_of_match (now : Int) (sid status : String)
    (it sn : Option String) (r : ConvRow)
    (h : (r.session_id == sid) = true) :
    (convUpdate now sid status it sn r).status = status := by
  simp [convUpdate, h]

/-- On the conflict path (some row holds the session id), update_conversation
maps the SET clause over the table. -/
theorem update_conversation_of_any_true (table : List ConvRow) (now : Int)
    (sid status : String) (it sn : Option String)
    (h : table.any (fun r => r.session_id == sid) = true) :
    update_conversation table now sid status it sn =
      table.map (convUpdate now sid status it sn) := by
  simp [update_conversation, h]

/-- On the insert path (no row holds the session id), update_conversation
appends the freshly inserted row. -/
theorem update_conversation_of_any_false (table : List ConvRow) (now : Int)
    (sid status : String) (it sn : Option String)
    (h : table.any (fun r => r.session_id == sid) = false) :
    update_conversation table now sid status it sn =
      table ++ [{ session_id := sid, status := status, issue_type := it,
                  sentiment := sn, created_at := now, updated_at := now }] := by
  simp [update_conversation, h]

/-- C2: starting from any table respecting the primary key (at most one row
per session_id), two successive update_conversation calls on the same
session_id leave exactly one row for it, with the status of the second call
and with created_at unchanged between the two calls. -/
theorem C2_update_conversation_upsert (table : List ConvRow) (t1 t2 : Int)
    (sid s1 s2 : String) (it1 it2 sn1 sn2 : Option String)
    (hpk : (convRows table sid).length ≤ 1) :
    ∃ r1 r2,
      convRows (update_conversation table t1 sid s1 it1 sn1) sid = [r1] ∧
      convRows (update_conversation (update_conversation table t1 sid s1 it1 sn1)
          t2 sid s2 it2 sn2) sid = [r2] ∧
      r2.status = s2 ∧ r2.created_at = r1.created_at := by
  by_cases h : table.any (fun r => r.session_id == sid) = true
  · obtain ⟨r0, hr0, hp0⟩ :=
      listSingletonOfAnyTrue (fun r => r.session_id == sid) table h
        (by simpa [convRows] using hpk)
    have hc1 : convRows (update_conversation table t1 sid s1 it1 sn1) sid =
        [convUpdate t1 sid s1 it1 sn1 r0] := by
      rw [update_conversation_of_any_true table t1 sid s1 it1 sn1 h]
      unfold convRows
      rw [listFilterMapPres _ _ (fun r => by rw [convUpdate_session_id]) table]
      rw [show table.filter (fun r => r.session_id == sid) = [r0] from hr0]
      rfl
    have hany1 : (update_conversation table t1 sid s1 it1 sn1).any
        (fun r => r.session_id == sid) = true := by
      rw [update_conversation_of_any_true table t1 sid s1 it1 sn1 h]
      rw [listAnyMapPres _ _ (fun r => by rw [convUpdate_session_id]) table]
      exact h
    have hc2 : convRows (update_conversation
        (update_conversation table t1 sid s1 it1 sn1) t2 sid s2 it2 sn2) sid =
        [convUpdate t2 sid s2 it2 sn2 (convUpdate t1 sid s1 it1 sn1 r0)] := by
      rw [update_conversation_of_any_true _ t2 sid s2 it2 sn2 hany1]
      unfold convRows
      rw [listFilterMapPres _ _ (fun r => by rw [convUpdate_session_id]) _]
      rw [show (update_conversation table t1 sid s1 it1 sn1).filter
            (fun r => r.session_id == sid) =
          [convUpdate t1 sid s1 it1 sn1 r0] from hc1]
      rfl
    refine ⟨convUpdate t1 sid s1 it1 sn1 r0,
            convUpdate t2 sid s2 it2 sn2 (convUpdate t1 sid s1 it1 sn1 r0),
            hc1, hc2, ?_, ?_⟩
    · refine convUpdate_status_of_match t2 sid s2 it2 sn2 _ ?_
      rw [convUpdate_session_id]
      exact hp0
    · exact convUpdate_created_at t2 sid s2 it2 sn2 _
  · have hfalse : table.any (fun r => r.session_id == sid) = false := by
      cases hx : table.any (fun r => r.session_id == sid)
      · rfl
      · exact absurd hx h
    have hnil : table.filter (fun r => r.session_id == sid) = [] :=
      listFilterNilOfAnyFalse _ table hfalse
    have hc1 : convRows (update_conversation table t1 sid s1 it1 sn1) sid =
        [{ session_id := sid, status := s1, issue_type := it1, sentiment := sn1,
           created_at := t1, updated_at := t1 }] := by
      rw [update_conversation_of_any_false table t1 sid s1 it1 sn1 hfalse]
      unfold convRows
      rw [List.filter_append, hnil]
      simp [List.filter_cons]
    have hany1 : (update_conversation table t1 sid s1 it1 sn1).any
        (fun r => r.session_id == sid) = true := by
      rw [update_conversation_of_any_false table t1 sid s1 it1 sn1 hfalse]
      simp [List.any_append]
    have hc2 : convRows (update_conversation
        (update_conversation table t1 sid s1 it1 sn1) t2 sid s2 it2 sn2) sid =
        [convUpdate t2 sid s2 it2 sn2
          { session_id := sid, status := s1, issue_type := it1, sentiment := sn1,
            created_at := t1, updated_at := t1 }] := by
      rw [update_conversation_of_any_true _ t2 sid s2 it2 sn2 hany1]
      unfold convRows
      rw [listFilterMapPres _ _ (fun r => by rw [convUpdate_session_id]) _]
      rw [show (update_conversation table t1 sid s1 it1 sn1).filter
            (fun r => r.session_id == sid) =
          [{ session_id := sid, status := s1, issue_type := it1, sentiment := sn1,
             created_at := t1, updated_at := t1 }] from hc1]
      rfl
    refine ⟨_, convUpdate t2 sid s2 it2 sn2
        { session_id := sid, status := s1, issue_type := it1, sentiment := sn1,
          created_at := t1, updated_at := t1 },
        hc1, hc2, ?_, ?_⟩
    · refine convUpdate_status_of_match t2 sid s2 it2 sn2 _ ?_
      simp
    · exact convUpdate_created_at t2 sid s2 it2 sn2 _

/-- C2 witness: on the empty table, inserting session "s1" as active at time
10 and upserting it as resolved at time 20 leaves one row with status
resolved and the created_at of the first call. -/
theorem C2_update_conversation_upsert_witness :
    (convRows ([] : List ConvRow) "s1").length ≤ 1 ∧
    (∃ r1 r2,
      convRows (update_conversation [] 10 "s1" "active" none none) "s1" = [r1] ∧
      convRows (update_conversation (update_conversation [] 10 "s1" "active" none none)
          20 "s1" "resolved" none none) "s1" = [r2] ∧
      r2.status = "resolved" ∧ r2.created_at = r1.created_at) :=
  ⟨by decide,
    C2_update_conversation_upsert [] 10 20 "s1" "active" "resolved"
      none none none none (by decide)⟩

end ActorMesh
